import Mathlib

/-
Verification of the gopost synchronization connector.

The Go sources are shallowly embedded: Go strings are Lean String values
(operated on through their character lists), Go time.Duration values are
Nat nanoseconds, Go time.Time instants are Nat, fallible Go calls are
Except String values, and the I/O collaborators (Elasticsearch, Redis,
Drupal, the rate limiter) are environments of explicit outcome functions.
Each embedded definition mirrors one function of the repository.
-/

set_option autoImplicit false
set_option linter.unusedVariables false

namespace GoPost

/-- Boolean error discriminator for embedded fallible calls. -/
def isErrE {α : Type} : Except String α → Bool
  | .error _ => true
  | .ok _ => false

/-- Go strings.ToLower, modelled characterwise on the string's characters. -/
def goLower (s : String) : List Char :=
  s.toList.map Char.toLower

/-- Go strings.Contains s sub: sub occurs contiguously inside s. -/
def goContains (s sub : List Char) : Bool :=
  decide (sub <:+: s)

/-- The Article struct of internal/integration/service.go: id, title,
body content, canonical url, published date and source label. -/
structure Article where
  id : String
  title : String
  content : String
  url : String
  publishedAt : Nat
  source : String
  deriving DecidableEq, Repr

/-- The method Service.isCrimeRelated of internal/integration/service.go:
lower-case the space-joined title and content, then test every configured
keyword (lower-cased) for substring occurrence. -/
def isCrimeRelated (crimeKeywords : List String) (article : Article) : Bool :=
  let content := goLower (article.title ++ " " ++ article.content)
  crimeKeywords.any (fun keyword => goContains content (goLower keyword))

/-- The relevance predicate exactly as claim C5 words it: a keyword occurs
in the lower-cased plain concatenation of title and body, with no
separator. Kept distinct from isCrimeRelated so the two can be compared. -/
def keepClaimConcat (crimeKeywords : List String) (article : Article) : Bool :=
  crimeKeywords.any
    (fun keyword => goContains (goLower (article.title ++ article.content)) (goLower keyword))

/-- One minute of Go time.Duration, in nanoseconds. -/
def minuteNs : Nat := 60000000000

/-- One hour of Go time.Duration, in nanoseconds. -/
def hourNs : Nat := 3600000000000

/-- The ServiceConfig struct of internal/config (durations in nanoseconds). -/
structure ServiceConfig where
  checkInterval : Nat
  rateLimitRPS : Int
  lookbackHours : Int
  crimeKeywords : List String
  contentType : String
  groupType : String
  dedupTTL : Nat
  deriving DecidableEq, Repr

/-- The CityConfig struct of internal/config. -/
structure CityConfig where
  name : String
  index : String
  groupID : String
  deriving DecidableEq, Repr

/-- The built-in keyword list installed by config.Load when the configured
list is empty. -/
def defaultCrimeKeywords : List String :=
  ["police", "arrest", "charged", "court",
   "murder", "assault", "robbery", "theft",
   "crime", "criminal", "suspect", "victim",
   "investigation", "warrant", "sentence"]

/-- The defaulting block of config.Load for the service section: every
zero or empty field is replaced by its documented default, in source
order. -/
def applyServiceDefaults (c : ServiceConfig) : ServiceConfig :=
  let c1 := if c.checkInterval == 0 then { c with checkInterval := 5 * minuteNs } else c
  let c2 := if c1.rateLimitRPS == 0 then { c1 with rateLimitRPS := 10 } else c1
  let c3 := if c2.crimeKeywords.isEmpty then { c2 with crimeKeywords := defaultCrimeKeywords } else c2
  let c4 := if c3.contentType == "" then { c3 with contentType := "node--article" } else c3
  let c5 := if c4.groupType == "" then { c4 with groupType := "group--crime_news" } else c4
  if c5.dedupTTL == 0 then { c5 with dedupTTL := 8760 * hourNs } else c5

/-- The Tracker struct of internal/dedup/tracker.go (the client handle is
externalized into the fault environment below). -/
structure Tracker where
  ttl : Nat
  deriving DecidableEq, Repr

/-- The constructor dedup.NewTracker: the TTL is hard-coded to one year;
no configuration value reaches it. -/
def newTracker : Tracker :=
  { ttl := 365 * 24 * hourNs }

/-- The method Tracker.key: namespacing of the duplicate-ledger key. -/
def trackerKey (articleID : String) : String :=
  "posted:article:" ++ articleID

/-- The contents of the Redis duplicate store: each set key together with
the TTL it was stored with. -/
structure RedisState where
  entries : List (String × Nat)
  deriving DecidableEq, Repr

/-- Existence check of a key in the store (Redis EXISTS returning 1). -/
def redisHasKey (st : RedisState) (k : String) : Bool :=
  st.entries.any (fun e => e.1 == k)

/-- Fault injection for the Redis client: some e means the corresponding
command on that key returns error e. -/
structure RedisFaults where
  existsErr : String → Option String
  setErr : String → Option String
  delErr : String → Option String

/-- The method Tracker.HasPosted: on a store error the error is logged and
false is returned (fail open); otherwise the key's existence decides. -/
def trackerHasPosted (f : RedisFaults) (st : RedisState) (t : Tracker) (articleID : String) : Bool :=
  match f.existsErr (trackerKey articleID) with
  | some _ => false
  | none => redisHasKey st (trackerKey articleID)

/-- The method Tracker.MarkPosted: Redis SET key "1" with the tracker's
TTL; a store error is returned to the caller. -/
def trackerMarkPosted (f : RedisFaults) (st : RedisState) (t : Tracker) (articleID : String) :
    Except String RedisState :=
  match f.setErr (trackerKey articleID) with
  | some e => .error e
  | none => .ok { entries := (trackerKey articleID, t.ttl) :: st.entries }

/-- The method Tracker.Clear: Redis DEL of the namespaced key; a store
error is returned to the caller. -/
def trackerClear (f : RedisFaults) (st : RedisState) (t : Tracker) (articleID : String) :
    Except String RedisState :=
  match f.delErr (trackerKey articleID) with
  | some e => .error e
  | none => .ok { entries := st.entries.filter (fun e => e.1 != trackerKey articleID) }

/-- A clause of the Elasticsearch bool query built by FindCrimeArticles.
The rangeGte clause keeps the watermark instant itself; the RFC3339 wire
formatting is order-preserving and injective, so it is not modelled. -/
inductive EsClause where
  | rangeGte (field : String) (gte : Nat)
  | multiMatch (query : String) (fields : List String) (matchType : String) (operator : String)
  deriving DecidableEq, Repr

/-- The search request body built by FindCrimeArticles. -/
structure EsQuery where
  must : List EsClause
  size : Nat
  sortField : String
  sortOrder : String
  deriving DecidableEq, Repr

/-- The query-building block of Service.FindCrimeArticles: one multi_match
clause over the joined keywords, preceded by a published_date range clause
exactly when LookbackHours is positive. -/
def buildCrimeQuery (cfg : ServiceConfig) (lastCheckTS : Nat) : EsQuery :=
  let mm := EsClause.multiMatch (String.intercalate " " cfg.crimeKeywords)
      ["title^2", "body"] "best_fields" "or"
  let mustClauses :=
    if cfg.lookbackHours > 0 then
      [EsClause.rangeGte "published_date" lastCheckTS, mm]
    else
      [mm]
  { must := mustClauses, size := 100, sortField := "published_date", sortOrder := "desc" }

/-- Index resolution in Service.FindCrimeArticles: the city's explicit
index override, else the derived name. -/
def resolveIndex (city : CityConfig) : String :=
  if city.index == "" then city.name ++ "_articles" else city.index

/-- One hit of the Elasticsearch response: the backend id and the decoded
source document. -/
structure EsHit where
  docId : String
  src : Article
  deriving DecidableEq, Repr

/-- The decoded Elasticsearch response: total match count and capped hit
list. -/
structure EsSearchResult where
  total : Nat
  hits : List EsHit
  deriving DecidableEq, Repr

/-- The Elasticsearch collaborator: the outcome of the filtered search
(transport failures, error responses and decode failures are folded into
the error branch with their message) and the outcome of the secondary
match_all probe. -/
structure EsEnv where
  searchResult : EsQuery → String → Except String EsSearchResult
  probeResult : Except String EsSearchResult

/-- The hit-extraction loop of FindCrimeArticles: a document without its
own id falls back to the backend-assigned id. -/
def extractArticles (hits : List EsHit) : List Article :=
  hits.map (fun h => if h.src.id == "" then { h.src with id := h.docId } else h.src)

/-- What one call of Service.FindCrimeArticles produces: the query it
built, the index it targeted, the returned item list or error, and whether
the diagnostic probe was issued. -/
structure FindOutcome where
  query : EsQuery
  index : String
  result : Except String (List Article)
  probeIssued : Bool

/-- The method Service.FindCrimeArticles: build the query, run the search,
extract the articles, and issue the diagnostic match_all probe (logging
only) when the filtered query reported zero total matches and the keyword
list is non-empty. The probe's outcome env.probeResult is only logged. -/
def findCrimeArticles (cfg : ServiceConfig) (lastCheckTS : Nat) (env : EsEnv)
    (city : CityConfig) : FindOutcome :=
  let q := buildCrimeQuery cfg lastCheckTS
  let idx := resolveIndex city
  match env.searchResult q idx with
  | .error e =>
      { query := q, index := idx, result := .error e, probeIssued := false }
  | .ok r =>
      let articles := extractArticles r.hits
      let probe := r.total == 0 && !cfg.crimeKeywords.isEmpty
      { query := q, index := idx, result := .ok articles, probeIssued := probe }

/-- The per-item collaborators consulted by Service.ProcessCity: the Redis
fault pattern, the rate limiter wait outcome and the Drupal post outcome,
keyed by the article id being handled. -/
structure ProcEnv where
  faults : RedisFaults
  limiterWait : String → Except String Unit
  postResult : String → Except String Unit

/-- The evolving state of one ProcessCity call: the duplicate store, the
ids for which a Drupal post was issued, the ids whose post succeeded, and
the posted/skipped/errors counters that the final log line reports. -/
structure ProcState where
  store : RedisState
  publishCalls : List String
  delivered : List String
  posted : Nat
  skipped : Nat
  errors : Nat

/-- Initial per-call state over a given duplicate store. -/
def initProcState (st : RedisState) : ProcState :=
  { store := st, publishCalls := [], delivered := [], posted := 0, skipped := 0, errors := 0 }

/-- The article loop of Service.ProcessCity: filter-false and dedup-hit
increment skipped and continue; a limiter wait error returns immediately
with an error; a post error increments errors and continues; a mark error
is only logged; a successful post increments posted. -/
def processArticlesLoop (cfg : ServiceConfig) (env : ProcEnv) (t : Tracker) :
    List Article → ProcState → ProcState × Except String Unit
  | [], s => (s, .ok ())
  | article :: rest, s =>
    if !(isCrimeRelated cfg.crimeKeywords article) then
      processArticlesLoop cfg env t rest { s with skipped := s.skipped + 1 }
    else if trackerHasPosted env.faults s.store t article.id then
      processArticlesLoop cfg env t rest { s with skipped := s.skipped + 1 }
    else
      match env.limiterWait article.id with
      | .error e => (s, .error ("rate limit wait: " ++ e))
      | .ok _ =>
        let s1 := { s with publishCalls := s.publishCalls ++ [article.id] }
        match env.postResult article.id with
        | .error _ =>
            processArticlesLoop cfg env t rest { s1 with errors := s1.errors + 1 }
        | .ok _ =>
            let s2 :=
              match trackerMarkPosted env.faults s1.store t article.id with
              | .error _ => s1
              | .ok st2 => { s1 with store := st2 }
            processArticlesLoop cfg env t rest
              { s2 with delivered := s2.delivered ++ [article.id], posted := s2.posted + 1 }

/-- The method Service.ProcessCity: fetch via FindCrimeArticles (an error
there is wrapped and returned), then run the article loop. -/
def processCity (cfg : ServiceConfig) (lastCheckTS : Nat) (esEnv : EsEnv) (env : ProcEnv)
    (t : Tracker) (city : CityConfig) (st : RedisState) : ProcState × Except String Unit :=
  match (findCrimeArticles cfg lastCheckTS esEnv city).result with
  | .error e => (initProcState st, .error ("find articles: " ++ e))
  | .ok articles => processArticlesLoop cfg env t articles (initProcState st)

/-- Observer of the article loop's control flow: true exactly when the
loop, replayed over the same filter, dedup, post and mark branching (and
the same store evolution), actually consults a limiter wait that errors.
Defined separately from the loop so the error taxonomy of ProcessCity can
be stated as an equivalence. -/
def loopLimiterAborts (cfg : ServiceConfig) (env : ProcEnv) (t : Tracker) :
    List Article → RedisState → Bool
  | [], _ => false
  | article :: rest, st =>
    if !(isCrimeRelated cfg.crimeKeywords article) then
      loopLimiterAborts cfg env t rest st
    else if trackerHasPosted env.faults st t article.id then
      loopLimiterAborts cfg env t rest st
    else
      match env.limiterWait article.id with
      | .error _ => true
      | .ok _ =>
        match env.postResult article.id with
        | .error _ => loopLimiterAborts cfg env t rest st
        | .ok _ =>
          match trackerMarkPosted env.faults st t article.id with
          | .error _ => loopLimiterAborts cfg env t rest st
          | .ok st2 => loopLimiterAborts cfg env t rest st2

/-- Per-city collaborator outcomes for one cycle. -/
structure CycleEnv where
  es : CityConfig → EsEnv
  proc : CityConfig → ProcEnv

/-- The orchestrator state: the shared watermark, the duplicate store, and
a log of every watermark write performed. -/
structure SyncState where
  lastCheckTS : Nat
  redis : RedisState
  watermarkWrites : List Nat

/-- The city loop of Service.runOnce: each configured city is processed in
order; a city error is logged and the loop continues with the other
cities. The duplicate store threads through; the watermark read is shared
because it is only written after the loop. -/
def runCities (cfg : ServiceConfig) (ts : Nat) (cenv : CycleEnv) (t : Tracker) :
    List CityConfig → RedisState → RedisState × List (CityConfig × Except String Unit)
  | [], st => (st, [])
  | city :: rest, st =>
    let pr := processCity cfg ts (cenv.es city) (cenv.proc city) t city st
    let rec2 := runCities cfg ts cenv t rest pr.1.store
    (rec2.1, (city, pr.2) :: rec2.2)

/-- The method Service.runOnce: process every configured city, then take
the write lock and set the watermark to the current instant, exactly once.
The returned error is always nil. -/
def runOnce (cfg : ServiceConfig) (cities : List CityConfig) (cenv : CycleEnv) (t : Tracker)
    (now : Nat) (s : SyncState) :
    SyncState × List (CityConfig × Except String Unit) × Except String Unit :=
  let r := runCities cfg s.lastCheckTS cenv t cities s.redis
  ({ lastCheckTS := now, redis := r.1, watermarkWrites := s.watermarkWrites ++ [now] },
   r.2, .ok ())

/-- The Drupal Client struct of the drupal package. -/
structure Client where
  baseURL : String
  username : String
  token : String
  authMethod : String
  deriving DecidableEq, Repr

/-- The ArticleRequest struct handed to PostArticle. -/
structure ArticleRequest where
  title : String
  body : String
  url : String
  groupID : String
  groupType : String
  contentType : String
  deriving DecidableEq, Repr

/-- One entry of the structured error list of a Drupal response. -/
structure DrupalErrorBody where
  status : String
  title : String
  detail : String
  deriving DecidableEq, Repr

/-- The decoded DrupalResponse body: created-resource data and error list. -/
structure DrupalRespBody where
  dataId : String
  dataType : String
  errorList : List DrupalErrorBody
  deriving DecidableEq, Repr

/-- An HTTP response of the creation request: status code, and the decoded
body when decoding succeeds. -/
structure HttpResp where
  status : Nat
  decoded : Option DrupalRespBody
  deriving DecidableEq, Repr

/-- The Drupal collaborator for one PostArticle call: the outcome of the
CSRF token fetch and the outcome of the creation request itself (the
error branch is a transport failure of client.Do). -/
structure DrupalEnv where
  csrfResult : Except String String
  createResult : Except String HttpResp

/-- The inner strip attempt of the endpoint derivation: the first five
characters of the label are compared against the six-character literal. -/
def stripNodeCT (contentType : String) : String :=
  if contentType.toList.length > 5 && decide (contentType.toList.take 5 = "node--".toList) then
    String.mk (contentType.toList.drop 5)
  else
    contentType

/-- The endpoint construction of PostArticle. -/
def deriveEndpoint (baseURL contentType : String) : String :=
  if contentType != "node--article" then
    baseURL ++ "/jsonapi/node/" ++ stripNodeCT contentType
  else
    baseURL ++ "/jsonapi/node/article"

/-- The credential material placed in the API-KEY and Authorization
headers. The base64 transcoding applied in the source is injective and no
verified property inspects the encoded form, so it is left out. -/
def authHeaderValue (c : Client) : String :=
  if c.username != "" then c.username ++ ":" ++ c.token else c.token

/-- The headers attached to the creation request, in source order; the
X-CSRF-Token header is present exactly when the token fetch succeeded. -/
def creationHeaders (c : Client) (csrf : Except String String) : List (String × String) :=
  [("Content-Type", "application/vnd.api+json"),
   ("Accept", "application/vnd.api+json"),
   ("API-KEY", authHeaderValue c),
   ("Authorization", "Basic " ++ authHeaderValue c)]
  ++ (if c.authMethod != "" then [("AUTH-METHOD", c.authMethod)] else [])
  ++ (match csrf with
      | .error _ => []
      | .ok tok => [("X-CSRF-Token", tok)])

/-- The JSON:API payload built from the request (field_url is omitted in
the source as well). -/
structure DrupalPayload where
  dataType : String
  title : String
  body : String
  groupType : String
  groupID : String
  deriving DecidableEq, Repr

/-- The payload-building block of PostArticle. -/
def buildPayload (req : ArticleRequest) : DrupalPayload :=
  { dataType := req.contentType, title := req.title, body := req.body,
    groupType := req.groupType, groupID := req.groupID }

/-- The creation request as issued. -/
structure HttpRequest where
  method : String
  url : String
  headers : List (String × String)
  payload : DrupalPayload

/-- The response-handling tail of PostArticle: a transport failure is
wrapped; a status of 400 or above is an error using the first structured
error when one decoded, else the raw status; a success body that fails to
decode is itself an error. -/
def handleCreateResponse (r : Except String HttpResp) : Except String Unit :=
  match r with
  | .error e => .error ("http request: " ++ e)
  | .ok resp =>
    if resp.status ≥ 400 then
      match resp.decoded with
      | some body =>
        match body.errorList with
        | e0 :: _ =>
            .error ("drupal API error (" ++ toString resp.status ++ "): "
              ++ e0.title ++ " - " ++ e0.detail)
        | [] => .error ("drupal API error: " ++ toString resp.status)
      | none => .error ("drupal API error: " ++ toString resp.status)
    else
      match resp.decoded with
      | none => .error "decode response"
      | some _ => .ok ()

/-- What one PostArticle call produces: the creation request that was
issued (it is issued on every path after payload construction) and the
returned error value. -/
structure PostOutcome where
  request : HttpRequest
  issued : Bool
  result : Except String Unit

/-- The method Client.PostArticle: build payload and endpoint, attach
headers (the CSRF fetch failure is only warned about), issue the creation
request, and let its response alone decide the outcome. -/
def postArticle (c : Client) (env : DrupalEnv) (req : ArticleRequest) : PostOutcome :=
  let endpoint := deriveEndpoint c.baseURL req.contentType
  let hdrs := creationHeaders c env.csrfResult
  { request := { method := "POST", url := endpoint, headers := hdrs, payload := buildPayload req },
    issued := true,
    result := handleCreateResponse env.createResult }

/-- Article used to separate the two readings of concatenation in C5. -/
def articleEB : Article :=
  { id := "x1", title := "e", content := "b", url := "", publishedAt := 0, source := "" }

/-- The sudbury tenant of the end-to-end scenario of the spec. -/
def sudburyCity : CityConfig :=
  { name := "sudbury", index := "", groupID := "group-123" }

/-- The scenario configuration: keywords arrest and police, lookback 24h. -/
def scenarioCfg : ServiceConfig :=
  { checkInterval := 5 * minuteNs, rateLimitRPS := 10, lookbackHours := 24,
    crimeKeywords := ["arrest", "police"], contentType := "node--article",
    groupType := "group--crime_news", dedupTTL := 8760 * hourNs }

/-- Scenario item A: kept by the filter. -/
def articleA : Article :=
  { id := "A", title := "Police arrest suspect downtown", content := "",
    url := "https://example.org/a", publishedAt := 999, source := "src" }

/-- Scenario item B: rejected by the filter. -/
def articleB : Article :=
  { id := "B", title := "City council meeting", content := "",
    url := "https://example.org/b", publishedAt := 999, source := "src" }

/-- The scenario source: both items returned on every search. -/
def scenarioEs : EsEnv :=
  { searchResult := fun _ _ => .ok { total := 2, hits := [⟨"esA", articleA⟩, ⟨"esB", articleB⟩] },
    probeResult := .ok { total := 0, hits := [] } }

/-- Fault-free per-item collaborators: no store faults, the limiter always
grants, every post succeeds. -/
def benignProc : ProcEnv :=
  { faults := { existsErr := fun _ => none, setErr := fun _ => none, delErr := fun _ => none },
    limiterWait := fun _ => .ok (),
    postResult := fun _ => .ok () }

/-- First scenario run over an empty duplicate store. -/
def scenarioRun1 : ProcState × Except String Unit :=
  processCity scenarioCfg 1000 scenarioEs benignProc newTracker sudburyCity { entries := [] }

/-- Second scenario run, over the store the first run left behind. -/
def scenarioRun2 : ProcState × Except String Unit :=
  processCity scenarioCfg 1000 scenarioEs benignProc newTracker sudburyCity scenarioRun1.1.store

/-- Characterization of goContains as explicit splitting. -/
theorem goContains_iff (s sub : List Char) :
    goContains s sub = true ↔ ∃ p q, s = p ++ sub ++ q := by
  unfold goContains
  rw [decide_eq_true_iff]
  unfold List.IsInfix
  constructor
  · rintro ⟨p, q, h⟩
    exact ⟨p, q, h.symm⟩
  · rintro ⟨p, q, h⟩
    exact ⟨p, q, h.symm⟩

/-- C5 counterexample: with keyword list eb, title e and body b, the
claim's separator-free concatenation reading demands acceptance, but the
code joins title and body with a space and rejects the item: the stated
iff fails at this input. -/
theorem isCrimeRelated_claim_counterexample :
    ¬ (isCrimeRelated ["eb"] articleEB = true ↔ keepClaimConcat ["eb"] articleEB = true) := by
  decide

/-- C5 (amended): isCrimeRelated accepts an item iff some configured
keyword occurs, lower-cased, as a contiguous substring of the lower-cased
space-joined concatenation of title and body, and the empty keyword list
rejects every item. -/
theorem isCrimeRelated_iff_substring (crimeKeywords : List String) (article : Article) :
    (isCrimeRelated crimeKeywords article = true ↔
      ∃ k ∈ crimeKeywords, ∃ p q,
        goLower (article.title ++ " " ++ article.content) = p ++ goLower k ++ q)
    ∧ isCrimeRelated [] article = false := by
  constructor
  · unfold isCrimeRelated
    rw [List.any_eq_true]
    constructor
    · rintro ⟨k, hk, hc⟩
      exact ⟨k, hk, (goContains_iff _ _).mp hc⟩
    · rintro ⟨k, hk, hpq⟩
      exact ⟨k, hk, (goContains_iff _ _).mpr hpq⟩
  · rfl

/-- C5 witness: the filter accepts the scenario article, so a keyword
split exists. -/
theorem isCrimeRelated_iff_substring_witness :
    ∃ k ∈ ["arrest", "police"], ∃ p q,
      goLower (articleA.title ++ " " ++ articleA.content) = p ++ goLower k ++ q :=
  (isCrimeRelated_iff_substring ["arrest", "police"] articleA).1.mp (by decide)

/-- A five-element take never equals the six-character list node--. -/
theorem take_five_ne_node (l : List Char) : ¬ (l.take 5 = "node--".toList) := by
  intro h
  have hlen := congrArg List.length h
  simp [List.length_take] at hlen
  omega

/-- The strip attempt in the endpoint derivation is inert: its guard
compares five characters against six and is false for every label. -/
theorem stripNodeCT_id (ct : String) : stripNodeCT ct = ct := by
  unfold stripNodeCT
  split
  · rename_i h
    exfalso
    rw [Bool.and_eq_true] at h
    exact take_five_ne_node _ (of_decide_eq_true h.2)
  · rfl

/-- C9: for every content-type label other than node--article the creation
endpoint keeps the label unchanged, and in particular node--news maps to
the path /jsonapi/node/node--news. -/
theorem postArticle_endpoint_unstripped :
    (∀ baseURL label : String, label ≠ "node--article" →
      deriveEndpoint baseURL label = baseURL ++ "/jsonapi/node/" ++ label)
    ∧ deriveEndpoint "https://x" "node--news" = "https://x/jsonapi/node/node--news" := by
  constructor
  · intro baseURL label h
    simp [deriveEndpoint, stripNodeCT_id, bne_iff_ne, h]
  · simp [deriveEndpoint, stripNodeCT_id]

/-- C9 witness: a concrete non-article label passes through unchanged. -/
theorem postArticle_endpoint_unstripped_witness :
    deriveEndpoint "https://y" "node--page" = "https://y/jsonapi/node/node--page" :=
  postArticle_endpoint_unstripped.1 "https://y" "node--page" (by decide)

/-- C3: a failing existence check makes HasPosted return false without
surfacing the error, while a failing set makes MarkPosted return exactly
the store's error to its caller. -/
theorem dedup_error_asymmetry (f : RedisFaults) (st : RedisState) (t : Tracker)
    (articleID e : String) :
    (f.existsErr (trackerKey articleID) = some e →
      trackerHasPosted f st t articleID = false)
    ∧ (f.setErr (trackerKey articleID) = some e →
      trackerMarkPosted f st t articleID = .error e)
    ∧ (f.setErr (trackerKey articleID) = none →
      trackerMarkPosted f st t articleID
        = .ok { entries := (trackerKey articleID, t.ttl) :: st.entries }) := by
  refine ⟨fun h => ?_, fun h => ?_, fun h => ?_⟩
  · simp [trackerHasPosted, h]
  · simp [trackerMarkPosted, h]
  · simp [trackerMarkPosted, h]

/-- C3 witness: a concrete outage on the existence check fails open, and a
concrete outage on the set is returned. -/
theorem dedup_error_asymmetry_witness :
    trackerHasPosted
        ⟨fun _ => some "down", fun _ => some "down", fun _ => none⟩
        { entries := [(trackerKey "a", 7)] } newTracker "a" = false
    ∧ trackerMarkPosted
        ⟨fun _ => some "down", fun _ => some "down", fun _ => none⟩
        { entries := [] } newTracker "a" = .error "down" :=
  ⟨(dedup_error_asymmetry ⟨fun _ => some "down", fun _ => some "down", fun _ => none⟩
      { entries := [(trackerKey "a", 7)] } newTracker "a" "down").1 rfl,
   (dedup_error_asymmetry ⟨fun _ => some "down", fun _ => some "down", fun _ => none⟩
      { entries := [] } newTracker "a" "down").2.1 rfl⟩

/-- C7: the configuration surface carries a DedupTTL setting (defaulted to
8760 hours by config.Load and preserved when explicitly set), but
dedup.NewTracker hard-codes a one-year TTL and the configured value never
reaches it: with DedupTTL configured to one hour, the mark operation still
stores the key with the one-year TTL. -/
theorem dedupTTL_ignored_by_tracker :
    (applyServiceDefaults
        { checkInterval := 0, rateLimitRPS := 0, lookbackHours := 0,
          crimeKeywords := [], contentType := "", groupType := "",
          dedupTTL := hourNs }).dedupTTL = hourNs
    ∧ (applyServiceDefaults
        { checkInterval := 0, rateLimitRPS := 0, lookbackHours := 0,
          crimeKeywords := [], contentType := "", groupType := "",
          dedupTTL := 0 }).dedupTTL = newTracker.ttl
    ∧ newTracker.ttl = 8760 * hourNs
    ∧ trackerMarkPosted ⟨fun _ => none, fun _ => none, fun _ => none⟩
        { entries := [] } newTracker "a"
        = .ok { entries := [("posted:article:a", 8760 * hourNs)] }
    ∧ 8760 * hourNs ≠ hourNs := by
  refine ⟨rfl, rfl, rfl, rfl, by decide⟩

/-- Helper: the query field of a FindCrimeArticles outcome is the built
query, whatever the search outcome. -/
theorem findCrimeArticles_query (cfg : ServiceConfig) (ts : Nat) (env : EsEnv)
    (city : CityConfig) :
    (findCrimeArticles cfg ts env city).query = buildCrimeQuery cfg ts := by
  simp only [findCrimeArticles]
  cases hs : env.searchResult (buildCrimeQuery cfg ts) (resolveIndex city) <;> simp [hs]

/-- C6: the query built by FindCrimeArticles carries a published_date
range clause bounded below by the current watermark exactly when the
configured lookback window is positive; otherwise the must list is the
keyword clause alone, with no date clause. -/
theorem find_query_date_filter (cfg : ServiceConfig) (ts : Nat) (env : EsEnv)
    (city : CityConfig) :
    ((∃ g, EsClause.rangeGte "published_date" g ∈ (findCrimeArticles cfg ts env city).query.must)
      ↔ 0 < cfg.lookbackHours)
    ∧ (0 < cfg.lookbackHours →
        (findCrimeArticles cfg ts env city).query.must
          = [EsClause.rangeGte "published_date" ts,
             EsClause.multiMatch (String.intercalate " " cfg.crimeKeywords)
               ["title^2", "body"] "best_fields" "or"])
    ∧ (¬ 0 < cfg.lookbackHours →
        (findCrimeArticles cfg ts env city).query.must
          = [EsClause.multiMatch (String.intercalate " " cfg.crimeKeywords)
               ["title^2", "body"] "best_fields" "or"]) := by
  rw [findCrimeArticles_query]
  by_cases h : 0 < cfg.lookbackHours
  · have hm : (buildCrimeQuery cfg ts).must
        = [EsClause.rangeGte "published_date" ts,
           EsClause.multiMatch (String.intercalate " " cfg.crimeKeywords)
             ["title^2", "body"] "best_fields" "or"] := by
      simp [buildCrimeQuery, h]
    rw [hm]
    exact ⟨⟨fun _ => h, fun _ => ⟨ts, by simp⟩⟩, fun _ => rfl, fun hc => absurd h hc⟩
  · have hm : (buildCrimeQuery cfg ts).must
        = [EsClause.multiMatch (String.intercalate " " cfg.crimeKeywords)
             ["title^2", "body"] "best_fields" "or"] := by
      simp [buildCrimeQuery, h]
    rw [hm]
    refine ⟨⟨?_, fun hc => absurd hc h⟩, fun hc => absurd hc h, fun _ => rfl⟩
    rintro ⟨g, hg⟩
    simp at hg

/-- C6 witness: with the scenario lookback of 24 hours the range clause is
present and bounded by the watermark. -/
theorem find_query_date_filter_witness :
    (findCrimeArticles scenarioCfg 1000 scenarioEs sudburyCity).query.must
      = [EsClause.rangeGte "published_date" 1000,
         EsClause.multiMatch (String.intercalate " " scenarioCfg.crimeKeywords)
           ["title^2", "body"] "best_fields" "or"] :=
  (find_query_date_filter scenarioCfg 1000 scenarioEs sudburyCity).2.1 (by decide)

/-- C10: the item list and error returned by FindCrimeArticles do not
depend on the probe's outcome, and the probe is issued only when the
filtered query succeeded with zero total matches and the configured
keyword list is non-empty. -/
theorem find_probe_result_free (cfg : ServiceConfig) (ts : Nat) (env : EsEnv)
    (pr : Except String EsSearchResult) (city : CityConfig) :
    ((findCrimeArticles cfg ts { env with probeResult := pr } city).result
      = (findCrimeArticles cfg ts env city).result)
    ∧ ((findCrimeArticles cfg ts env city).probeIssued = true →
        ∃ r, env.searchResult (buildCrimeQuery cfg ts) (resolveIndex city) = .ok r
          ∧ r.total = 0 ∧ cfg.crimeKeywords ≠ []) := by
  constructor
  · simp only [findCrimeArticles]
  · intro hp
    simp only [findCrimeArticles] at hp
    rcases hs : env.searchResult (buildCrimeQuery cfg ts) (resolveIndex city) with e | r
    · simp [hs] at hp
    · simp only [hs, Bool.and_eq_true, beq_iff_eq, Bool.not_eq_true'] at hp
      refine ⟨r, rfl, hp.1, fun hnil => ?_⟩
      have := hp.2
      rw [hnil] at this
      simp at this

/-- C10 witness: a zero-total search with a populated keyword list issues
the probe, and the probe outcome and its absence leave the result alike. -/
theorem find_probe_result_free_witness :
    ∃ r, (EsEnv.mk (fun _ _ => .ok { total := 0, hits := [] }) (.error "probe down")).searchResult
          (buildCrimeQuery scenarioCfg 5) (resolveIndex sudburyCity) = .ok r
        ∧ r.total = 0 ∧ scenarioCfg.crimeKeywords ≠ [] :=
  (find_probe_result_free scenarioCfg 5
      (EsEnv.mk (fun _ _ => .ok { total := 0, hits := [] }) (.error "probe down"))
      (.ok { total := 3, hits := [] }) sudburyCity).2 (by decide)

/-- C8: when the CSRF token fetch fails, PostArticle still issues the
creation request, attaches no X-CSRF-Token header, and its outcome equals
the outcome under any other token-fetch result with the same creation
response. -/
theorem postArticle_csrf_best_effort (c : Client) (env : DrupalEnv) (req : ArticleRequest)
    (e : String) (hcsrf : env.csrfResult = .error e) :
    (postArticle c env req).issued = true
    ∧ (∀ v, ("X-CSRF-Token", v) ∉ (postArticle c env req).request.headers)
    ∧ (∀ env2 : DrupalEnv, env2.createResult = env.createResult →
        (postArticle c env2 req).result = (postArticle c env req).result) := by
  refine ⟨rfl, ?_, ?_⟩
  · intro v hv
    simp only [postArticle, creationHeaders, hcsrf] at hv
    rcases List.mem_append.mp hv with hv1 | hv2
    · rcases List.mem_append.mp hv1 with hv3 | hv4
      · simp at hv3
      · by_cases ha : c.authMethod != ""
        · simp [ha] at hv4
        · simp [ha] at hv4
    · simp at hv2
  · intro env2 h2
    simp only [postArticle]
    rw [h2]

/-- C8 witness: with a failed token fetch and a 201 creation response the
call is issued and succeeds, untouched by the fetch failure. -/
theorem postArticle_csrf_best_effort_witness :
    (postArticle ⟨"https://x", "u", "tok", ""⟩
        ⟨.error "boom", .ok ⟨201, some ⟨"id1", "node--article", []⟩⟩⟩
        ⟨"T", "B", "https://u", "G", "group--crime_news", "node--article"⟩).issued = true
    ∧ (∀ v, ("X-CSRF-Token", v) ∉
        (postArticle ⟨"https://x", "u", "tok", ""⟩
          ⟨.error "boom", .ok ⟨201, some ⟨"id1", "node--article", []⟩⟩⟩
          ⟨"T", "B", "https://u", "G", "group--crime_news", "node--article"⟩).request.headers) :=
  ⟨(postArticle_csrf_best_effort ⟨"https://x", "u", "tok", ""⟩
      ⟨.error "boom", .ok ⟨201, some ⟨"id1", "node--article", []⟩⟩⟩
      ⟨"T", "B", "https://u", "G", "group--crime_news", "node--article"⟩ "boom" rfl).1,
   (postArticle_csrf_best_effort ⟨"https://x", "u", "tok", ""⟩
      ⟨.error "boom", .ok ⟨201, some ⟨"id1", "node--article", []⟩⟩⟩
      ⟨"T", "B", "https://u", "G", "group--crime_news", "node--article"⟩ "boom" rfl).2.1⟩

/-- Helper: when the limiter grants every article in the list, the loop
ends without error, whatever the filter, dedup, post and mark outcomes. -/
theorem loop_ok_of_limiter_ok (cfg : ServiceConfig) (env : ProcEnv) (t : Tracker) :
    ∀ (articles : List Article) (s : ProcState),
      (∀ a ∈ articles, env.limiterWait a.id = .ok ()) →
      (processArticlesLoop cfg env t articles s).2 = .ok () := by
  intro articles
  induction articles with
  | nil => intro s h; rfl
  | cons a rest ih =>
    intro s h
    have ha : env.limiterWait a.id = .ok () := h a (List.mem_cons_self a rest)
    have hrest : ∀ x ∈ rest, env.limiterWait x.id = .ok () :=
      fun x hx => h x (List.mem_cons_of_mem a hx)
    cases hf : isCrimeRelated cfg.crimeKeywords a with
    | false =>
      simp only [processArticlesLoop, hf, Bool.not_false, if_true]
      exact ih _ hrest
    | true =>
      cases hd : trackerHasPosted env.faults s.store t a.id with
      | true =>
        simp [processArticlesLoop, hf, hd]
        exact ih _ hrest
      | false =>
        cases hp : env.postResult a.id with
        | error e =>
          simp [processArticlesLoop, hf, hd, ha, hp]
          exact ih _ hrest
        | ok u =>
          simp [processArticlesLoop, hf, hd, ha, hp]
          exact ih _ hrest

/-- Helper: the loop only errors when some article of the list had an
erroring limiter wait. -/
theorem loop_err_limiter (cfg : ServiceConfig) (env : ProcEnv) (t : Tracker) :
    ∀ (articles : List Article) (s : ProcState),
      isErrE (processArticlesLoop cfg env t articles s).2 = true →
      ∃ a ∈ articles, isErrE (env.limiterWait a.id) = true := by
  intro articles
  induction articles with
  | nil => intro s h; simp [processArticlesLoop, isErrE] at h
  | cons a rest ih =>
    intro s h
    cases hf : isCrimeRelated cfg.crimeKeywords a with
    | false =>
      simp only [processArticlesLoop, hf, Bool.not_false, if_true] at h
      obtain ⟨x, hx, hl⟩ := ih _ h
      exact ⟨x, List.mem_cons_of_mem a hx, hl⟩
    | true =>
      cases hd : trackerHasPosted env.faults s.store t a.id with
      | true =>
        simp [processArticlesLoop, hf, hd] at h
        obtain ⟨x, hx, hl⟩ := ih _ h
        exact ⟨x, List.mem_cons_of_mem a hx, hl⟩
      | false =>
        cases hw : env.limiterWait a.id with
        | error e => exact ⟨a, List.mem_cons_self a rest, by simp [isErrE, hw]⟩
        | ok u =>
          cases hp : env.postResult a.id with
          | error e2 =>
            simp [processArticlesLoop, hf, hd, hw, hp] at h
            obtain ⟨x, hx, hl⟩ := ih _ h
            exact ⟨x, List.mem_cons_of_mem a hx, hl⟩
          | ok u2 =>
            simp [processArticlesLoop, hf, hd, hw, hp] at h
            obtain ⟨x, hx, hl⟩ := ih _ h
            exact ⟨x, List.mem_cons_of_mem a hx, hl⟩

/-- Helper: the loop ends in an error exactly when a consulted limiter
wait errors, as replayed by loopLimiterAborts over the same branching and
store evolution. -/
theorem loop_err_eq_aborts (cfg : ServiceConfig) (env : ProcEnv) (t : Tracker) :
    ∀ (articles : List Article) (s : ProcState),
      isErrE (processArticlesLoop cfg env t articles s).2
        = loopLimiterAborts cfg env t articles s.store := by
  intro articles
  induction articles with
  | nil => intro s; rfl
  | cons a rest ih =>
    intro s
    cases hcr : isCrimeRelated cfg.crimeKeywords a with
    | false =>
      simp only [processArticlesLoop, loopLimiterAborts, hcr, Bool.not_false, if_true]
      exact ih _
    | true =>
      cases hd : trackerHasPosted env.faults s.store t a.id with
      | true =>
        simp [processArticlesLoop, loopLimiterAborts, hcr, hd]
        exact ih _
      | false =>
        cases hw : env.limiterWait a.id with
        | error e =>
          simp [processArticlesLoop, loopLimiterAborts, hcr, hd, hw, isErrE]
        | ok u =>
          cases hpost : env.postResult a.id with
          | error e2 =>
            simp [processArticlesLoop, loopLimiterAborts, hcr, hd, hw, hpost]
            exact ih _
          | ok u2 =>
            cases hm : trackerMarkPosted env.faults s.store t a.id with
            | error em =>
              simp [processArticlesLoop, loopLimiterAborts, hcr, hd, hw, hpost, hm]
              exact ih _
            | ok st2 =>
              simp [processArticlesLoop, loopLimiterAborts, hcr, hd, hw, hpost, hm]
              exact ih _

/-- C4: ProcessCity returns an error exactly on a fetch error or on a
consulted limiter wait that errors (the equivalence in the third
conjunct); filter rejections, dedup hits, post errors and mark errors
never produce one, and the abort observer only fires when some listed
article's wait errors. -/
theorem processCity_error_taxonomy (cfg : ServiceConfig) (ts : Nat) (esEnv : EsEnv)
    (env : ProcEnv) (t : Tracker) (city : CityConfig) (st : RedisState) :
    (∀ e, (findCrimeArticles cfg ts esEnv city).result = .error e →
        (processCity cfg ts esEnv env t city st).2 = .error ("find articles: " ++ e))
    ∧ (∀ articles, (findCrimeArticles cfg ts esEnv city).result = .ok articles →
        (∀ a ∈ articles, env.limiterWait a.id = .ok ()) →
        (processCity cfg ts esEnv env t city st).2 = .ok ())
    ∧ (isErrE (processCity cfg ts esEnv env t city st).2 = true
        ↔ (isErrE (findCrimeArticles cfg ts esEnv city).result = true
           ∨ ∃ articles, (findCrimeArticles cfg ts esEnv city).result = .ok articles
               ∧ loopLimiterAborts cfg env t articles st = true))
    ∧ (∀ articles, loopLimiterAborts cfg env t articles st = true →
        ∃ a ∈ articles, isErrE (env.limiterWait a.id) = true) := by
  refine ⟨?_, ?_, ?_, ?_⟩
  · intro e he
    simp [processCity, he]
  · intro arts harts hl
    simp only [processCity, harts]
    exact loop_ok_of_limiter_ok cfg env t arts _ hl
  · rcases hr : (findCrimeArticles cfg ts esEnv city).result with e | arts
    · have hpc : (processCity cfg ts esEnv env t city st).2
          = .error ("find articles: " ++ e) := by
        simp [processCity, hr]
      rw [hpc]
      exact ⟨fun _ => Or.inl rfl, fun _ => rfl⟩
    · have hpc : (processCity cfg ts esEnv env t city st).2
          = (processArticlesLoop cfg env t arts (initProcState st)).2 := by
        simp [processCity, hr]
      rw [hpc, loop_err_eq_aborts cfg env t arts (initProcState st)]
      constructor
      · intro h
        exact Or.inr ⟨arts, rfl, h⟩
      · rintro (hbad | ⟨as2, heq, habort⟩)
        · exact absurd hbad (by simp [isErrE])
        · obtain rfl := Except.ok.inj heq
          exact habort
  · intro arts habort
    have h2 : isErrE (processArticlesLoop cfg env t arts (initProcState st)).2 = true := by
      rw [loop_err_eq_aborts]
      exact habort
    exact loop_err_limiter cfg env t arts _ h2

/-- C4 witness: in the fault-free scenario run the call returns no error. -/
theorem processCity_error_taxonomy_witness :
    (processCity scenarioCfg 1000 scenarioEs benignProc newTracker sudburyCity
      { entries := [] }).2 = .ok () :=
  (processCity_error_taxonomy scenarioCfg 1000 scenarioEs benignProc newTracker sudburyCity
      { entries := [] }).2.1 [articleA, articleB] rfl (fun a _ => rfl)

/-- Helper: an identifier whose ledger key is present and whose existence
check does not error is never posted by the loop. -/
theorem loop_no_republish (cfg : ServiceConfig) (env : ProcEnv) (t : Tracker) (d : String)
    (hf : env.faults.existsErr (trackerKey d) = none) :
    ∀ (articles : List Article) (s : ProcState),
      redisHasKey s.store (trackerKey d) = true →
      d ∉ s.publishCalls →
      d ∉ (processArticlesLoop cfg env t articles s).1.publishCalls := by
  intro articles
  induction articles with
  | nil => intro s hk hp; exact hp
  | cons a rest ih =>
    intro s hk hp
    cases hcr : isCrimeRelated cfg.crimeKeywords a with
    | false =>
      simp only [processArticlesLoop, hcr, Bool.not_false, if_true]
      exact ih _ hk hp
    | true =>
      cases hd : trackerHasPosted env.faults s.store t a.id with
      | true =>
        have := ih { s with skipped := s.skipped + 1 } hk hp
        simpa [processArticlesLoop, hcr, hd] using this
      | false =>
        have hne : a.id ≠ d := by
          intro had
          rw [had] at hd
          simp only [trackerHasPosted, hf] at hd
          rw [hk] at hd
          exact Bool.noConfusion hd
        have hp2 : d ∉ s.publishCalls ++ [a.id] := by
          intro hmem
          rcases List.mem_append.mp hmem with h1 | h2
          · exact hp h1
          · rw [List.mem_singleton] at h2
            exact hne h2.symm
        cases hw : env.limiterWait a.id with
        | error e =>
          simpa [processArticlesLoop, hcr, hd, hw] using hp
        | ok u =>
          cases hpost : env.postResult a.id with
          | error e2 =>
            have := ih { s with publishCalls := s.publishCalls ++ [a.id], errors := s.errors + 1 } hk hp2
            simpa [processArticlesLoop, hcr, hd, hw, hpost] using this
          | ok u2 =>
            cases hm : trackerMarkPosted env.faults s.store t a.id with
            | error em =>
              have := ih { s with publishCalls := s.publishCalls ++ [a.id], delivered := s.delivered ++ [a.id], posted := s.posted + 1 } hk hp2
              simpa [processArticlesLoop, hcr, hd, hw, hpost, hm] using this
            | ok st2 =>
              have hst2 : st2 = { entries := (trackerKey a.id, t.ttl) :: s.store.entries } := by
                simp only [trackerMarkPosted] at hm
                cases hse : env.faults.setErr (trackerKey a.id) with
                | some e3 => rw [hse] at hm; exact Except.noConfusion hm
                | none => rw [hse] at hm; exact (Except.ok.inj hm).symm
              have hk2 : redisHasKey st2 (trackerKey d) = true := by
                rw [hst2]
                simp only [redisHasKey, List.any_cons, Bool.or_eq_true]
                right
                simpa [redisHasKey] using hk
              have := ih { store := st2, publishCalls := s.publishCalls ++ [a.id], delivered := s.delivered ++ [a.id], posted := s.posted + 1, skipped := s.skipped, errors := s.errors } hk2 hp2
              simpa [processArticlesLoop, hcr, hd, hw, hpost, hm] using this

/-- C1 counterexample: in the spec scenario the rerun after A was marked
reports a skipped count of 2 (the dedup hit for A plus the filter
rejection of B), not 1 as the claim states. -/
theorem rerun_skipped_count_counterexample :
    scenarioRun2.1.skipped = 2 ∧ scenarioRun2.1.skipped ≠ 1 := by
  decide

/-- C1 (amended): rerunning ProcessCity on the same item list, with every
identifier delivered by the first run marked in the ledger and the second
run's existence checks healthy for those identifiers, performs no post
call for them; in the spec scenario the rerun makes zero post calls and
reports a skipped count of 2: one for the previously posted item skipped
by the dedup check and one for the filter-rejected item. -/
theorem processCity_idempotent :
    (∀ (cfg : ServiceConfig) (ts1 ts2 : Nat) (es1 es2 : EsEnv) (env1 env2 : ProcEnv)
       (t : Tracker) (city : CityConfig) (st0 : RedisState) (articles : List Article),
       (findCrimeArticles cfg ts1 es1 city).result = .ok articles →
       (findCrimeArticles cfg ts2 es2 city).result = .ok articles →
       (∀ d ∈ (processCity cfg ts1 es1 env1 t city st0).1.delivered,
          redisHasKey (processCity cfg ts1 es1 env1 t city st0).1.store (trackerKey d) = true) →
       (∀ d ∈ (processCity cfg ts1 es1 env1 t city st0).1.delivered,
          env2.faults.existsErr (trackerKey d) = none) →
       ∀ d ∈ (processCity cfg ts1 es1 env1 t city st0).1.delivered,
         d ∉ (processCity cfg ts2 es2 env2 t city
                (processCity cfg ts1 es1 env1 t city st0).1.store).1.publishCalls)
    ∧ scenarioRun2.1.publishCalls = [] ∧ scenarioRun2.1.skipped = 2 := by
  refine ⟨?_, by decide, by decide⟩
  intro cfg ts1 ts2 es1 es2 env1 env2 t city st0 arts h1 h2 hmarked hok d hd
  have run2eq : processCity cfg ts2 es2 env2 t city
      (processCity cfg ts1 es1 env1 t city st0).1.store
      = processArticlesLoop cfg env2 t arts
          (initProcState (processCity cfg ts1 es1 env1 t city st0).1.store) := by
    simp [processCity, h2]
  rw [run2eq]
  exact loop_no_republish cfg env2 t d (hok d hd) arts _ (hmarked d hd) (List.not_mem_nil d)

/-- C1 witness: the delivered identifier A of the first scenario run is
not posted again by the second. -/
theorem processCity_idempotent_witness :
    "A" ∉ (processCity scenarioCfg 1000 scenarioEs benignProc newTracker sudburyCity
        (processCity scenarioCfg 1000 scenarioEs benignProc newTracker sudburyCity
          { entries := [] }).1.store).1.publishCalls :=
  processCity_idempotent.1 scenarioCfg 1000 1000 scenarioEs scenarioEs benignProc benignProc
    newTracker sudburyCity { entries := [] } [articleA, articleB] rfl rfl
    (by decide) (by decide) "A" (by decide)

/-- Helper: the cycle loop visits exactly the configured cities, in order,
whatever each city's outcome. -/
theorem runCities_map_fst (cfg : ServiceConfig) (ts : Nat) (cenv : CycleEnv) (t : Tracker) :
    ∀ (cities : List CityConfig) (st : RedisState),
      (runCities cfg ts cenv t cities st).2.map Prod.fst = cities := by
  intro cities
  induction cities with
  | nil => intro st; rfl
  | cons c rest ih =>
    intro st
    simp [runCities, ih]

/-- C2: in every cycle all configured tenants are processed in configured
order whatever their individual outcomes, the watermark is written exactly
once, at cycle end, to the current instant, and with a non-decreasing
clock the watermark never decreases across sequential cycles. -/
theorem runOnce_cycle_invariant (cfg : ServiceConfig) (cities : List CityConfig)
    (cenv : CycleEnv) (t : Tracker) (now : Nat) (s : SyncState) :
    ((runOnce cfg cities cenv t now s).2.1.map Prod.fst = cities)
    ∧ (runOnce cfg cities cenv t now s).1.lastCheckTS = now
    ∧ (runOnce cfg cities cenv t now s).1.watermarkWrites = s.watermarkWrites ++ [now]
    ∧ ∀ (cfg2 : ServiceConfig) (cities2 : List CityConfig) (cenv2 : CycleEnv)
        (t2 : Tracker) (now2 : Nat), now ≤ now2 →
        (runOnce cfg cities cenv t now s).1.lastCheckTS
          ≤ (runOnce cfg2 cities2 cenv2 t2 now2
              (runOnce cfg cities cenv t now s).1).1.lastCheckTS := by
  refine ⟨?_, rfl, rfl, ?_⟩
  · exact runCities_map_fst cfg s.lastCheckTS cenv t cities s.redis
  · intro cfg2 cities2 cenv2 t2 now2 h
    exact h

/-- C2 witness: a failing tenant is still followed by the watermark write,
and a later cycle at a later instant keeps the watermark non-decreasing. -/
theorem runOnce_cycle_invariant_witness :
    (runOnce scenarioCfg [sudburyCity] ⟨fun _ => scenarioEs, fun _ => benignProc⟩
        newTracker 1 ⟨0, { entries := [] }, []⟩).1.lastCheckTS
      ≤ (runOnce scenarioCfg [] ⟨fun _ => scenarioEs, fun _ => benignProc⟩ newTracker 2
          (runOnce scenarioCfg [sudburyCity] ⟨fun _ => scenarioEs, fun _ => benignProc⟩
            newTracker 1 ⟨0, { entries := [] }, []⟩).1).1.lastCheckTS :=
  (runOnce_cycle_invariant scenarioCfg [sudburyCity]
      ⟨fun _ => scenarioEs, fun _ => benignProc⟩ newTracker 1
      ⟨0, { entries := [] }, []⟩).2.2.2 scenarioCfg []
      ⟨fun _ => scenarioEs, fun _ => benignProc⟩ newTracker 2 (by decide)

end GoPost
